import Mathlib

/-!
Shallow embedding of the incremental data-loading and view-navigation engine of
the temporal-tui repository (src/widgets/workflow_table.rs, src/widgets/workflow.rs,
src/widgets/common.rs, src/widgets/mod.rs).

Modelling conventions:
- Rust byte vectors (page tokens) are `List Nat`; strings are `String`.
- `tokio::time::Instant` is an abstract tick count `Nat`, supplied as a `now`
  parameter to the operations that read the clock.
- Rust `usize` arithmetic is modelled with release-profile (wrapping) semantics:
  `usizeSub`/explicit `% USIZE`.
- Fallible Rust `TryFrom` conversions are `Except String` functions; a
  `collect::<Result<Vec<_>, _>>()` is `collectResults` (first error wins).
- `panic!` in a spawned fetch task is modelled by the `StepResult.panicked`
  constructor: the state mutations performed before the panic stay visible
  (they went through the shared `RwLock`), but the operation does not return
  normally and the task serves no further message.
- Rendering-only data (themes, layout, scrollbar contents) is omitted; the
  `ratatui` TableState selection is modelled by its `selected` index, the
  scrollbar by its position.
-/

namespace TemporalTui

/-- Rust release-profile `usize` modulus. -/
def USIZE : Nat := 2 ^ 64

/-- Wrapping `usize` subtraction (release-profile semantics of `a - b`). -/
def usizeSub (a b : Nat) : Nat := (a + (USIZE - b % USIZE)) % USIZE

/-- `chrono::DateTime::from_timestamp(secs, nanos)`: succeeds iff `secs` is in
chrono's representable range and `nanos` admits at most a leap second; the
resulting date-time is represented by its total nanosecond count. -/
def chronoFromTimestamp (secs : Int) (nanos : Nat) : Option Int :=
  if nanos ≤ 1999999999 ∧ -8334601228800 ≤ secs ∧ secs ≤ 8210266876799 then
    some (secs * 1000000000 + nanos)
  else none

/-- `LoadingState` from src/widgets/common.rs. -/
inductive LoadingState
  | Idle
  | Reloaded
  | Loading
  | PageLoaded
  | Error (msg : String)
deriving DecidableEq

/-- `Message` from src/widgets/common.rs: the fetch-task queue elements. -/
inductive Message
  | Reload
  | LoadPage (page_token : List Nat)
deriving DecidableEq

/-- Result of a widget operation running inside the fetch task: either a normal
return or a `panic!` unwinding; either way the state mutations already applied
through the shared lock are carried. -/
inductive StepResult (σ : Type)
  | ok (s : σ)
  | panicked (s : σ)
deriving DecidableEq

/-- The state carried by a `StepResult`, panicked or not. -/
def StepResult.get {σ : Type} : StepResult σ → σ
  | .ok s => s
  | .panicked s => s

/-- Whether the operation returned normally. -/
def StepResult.isOk {σ : Type} : StepResult σ → Bool
  | .ok _ => true
  | .panicked _ => false

/-- Whether the operation panicked. -/
def StepResult.isPanicked {σ : Type} : StepResult σ → Bool
  | .ok _ => false
  | .panicked _ => true

instance {ε α : Type} [DecidableEq ε] [DecidableEq α] : DecidableEq (Except ε α) := fun x y =>
  match x, y with
  | .ok a, .ok b => if h : a = b then .isTrue (by rw [h]) else .isFalse (by simp [h])
  | .error a, .error b => if h : a = b then .isTrue (by rw [h]) else .isFalse (by simp [h])
  | .ok _, .error _ => .isFalse (by simp)
  | .error _, .ok _ => .isFalse (by simp)

/-- Rust `iter().map(TryInto::try_into).collect::<Result<Vec<_>, _>>()`:
convert every element, stopping at the first failure. -/
def collectResults {α β : Type} (f : α → Except String β) : List α → Except String (List β)
  | [] => .ok []
  | x :: xs =>
    match f x with
    | .error e => .error e
    | .ok b =>
      match collectResults f xs with
      | .error e => .error e
      | .ok bs => .ok (b :: bs)

/-- `enums::WorkflowExecutionStatus` (external collaborator enum). -/
inductive WorkflowExecutionStatus
  | Unspecified
  | Running
  | Completed
  | Failed
  | Canceled
  | Terminated
  | ContinuedAsNew
  | TimedOut
deriving DecidableEq

/-- `enums::WorkflowExecutionStatus::try_from(i32)` of the generated proto enum. -/
def WorkflowExecutionStatus.tryFrom (i : Int) : Except String WorkflowExecutionStatus :=
  match i with
  | 0 => .ok .Unspecified
  | 1 => .ok .Running
  | 2 => .ok .Completed
  | 3 => .ok .Failed
  | 4 => .ok .Canceled
  | 5 => .ok .Terminated
  | 6 => .ok .ContinuedAsNew
  | 7 => .ok .TimedOut
  | _ => .error "invalid workflow execution status enum value"

/-- `workflow::WorkflowExecutionInfo` (the raw proto row of a list/describe
response). `execution` carries `(workflow_id, run_id)`; timestamps are raw
`(seconds, nanos)` pairs; `execution_duration` is the raw signed second count
of a proto Duration. -/
structure WorkflowExecutionInfo where
  execution : Option (String × String)
  type : Option String
  status : Int
  task_queue : String
  start_time : Option (Int × Nat)
  close_time : Option (Int × Nat)
  execution_time : Option (Int × Nat)
  execution_duration : Option Int
  history_size_bytes : Int
deriving DecidableEq

/-- `WorkflowExecution` domain row from src/widgets/common.rs. -/
structure WorkflowExecution where
  status : WorkflowExecutionStatus
  type : String
  workflow_id : String
  run_id : String
  task_queue : String
  start_time : Option Int
  close_time : Option Int
  execution_time : Option Int
  execution_duration : Option Nat
  history_size_bytes : Nat
deriving DecidableEq

/-- `TryFrom<workflow::WorkflowExecutionInfo> for WorkflowExecution`
(src/widgets/common.rs): fails when the execution identity is missing, the
duration is negative, the status is not a valid enum value, or the workflow
type is missing — in that evaluation order. -/
def WorkflowExecution.tryFrom (info : WorkflowExecutionInfo) : Except String WorkflowExecution := do
  let execution ← match info.execution with
    | some e => Except.ok e
    | none => Except.error "workflow has no execution"
  let execution_duration ← match info.execution_duration with
    | some d =>
      if d < 0 then Except.error "duration out of range"
      else Except.ok (some d.toNat)
    | none => Except.ok (Option.none)
  let status ← WorkflowExecutionStatus.tryFrom info.status
  let ty ← match info.type with
    | some t => Except.ok t
    | none => Except.error "workflow execution has no type"
  Except.ok
    { status := status
      type := ty
      workflow_id := execution.1
      run_id := execution.2
      task_queue := info.task_queue
      start_time := info.start_time.bind (fun p => chronoFromTimestamp p.1 p.2)
      close_time := info.close_time.bind (fun p => chronoFromTimestamp p.1 p.2)
      execution_time := info.execution_time.bind (fun p => chronoFromTimestamp p.1 p.2)
      execution_duration := execution_duration
      history_size_bytes := (info.history_size_bytes.emod (2 ^ 64 : Int)).toNat }

/-- `service::ListWorkflowExecutionsResponse` (fields the widget reads). -/
structure ListWorkflowExecutionsResponse where
  executions : List WorkflowExecutionInfo
  next_page_token : List Nat
deriving DecidableEq

/-- `QueryInput` from src/widgets/workflow_table.rs (theme omitted). -/
structure QueryInput where
  query : Option String
  placeholder : String
  cursor : Nat
deriving DecidableEq

/-- `QueryInput::query()`: the trimmed query text, or the empty string when no
query has been entered. -/
def QueryInput.queryString (q : QueryInput) : String :=
  match q.query with
  | some s => s.trim
  | none => ""

/-- `QueryInput::default()`. -/
def QueryInput.default : QueryInput :=
  { query := none, placeholder := "Enter a query...", cursor := 0 }

/-- `Mode` of the workflow table widget. -/
inductive TableMode
  | Normal
  | Query
deriving DecidableEq

/-- `WorkflowTableState` from src/widgets/workflow_table.rs: the shared state
behind the `RwLock`. The `ratatui` table state is represented by its selected
index, the scrollbar by its position. -/
structure WorkflowTableState where
  workflow_executions : List WorkflowExecution
  next_page_token : Option (List Nat)
  loading_state : LoadingState
  selected : Option Nat
  scrollbar_position : Nat
deriving DecidableEq

/-- `WorkflowTableWidget` (client and theme omitted; `sender` is implicit in
the message list fed to the fetch loop). -/
structure WorkflowTableWidget where
  state : WorkflowTableState
  page_size : Nat
  mode : TableMode
  last_reload : Option Nat
  query : QueryInput
deriving DecidableEq

/-- `WorkflowTableWidget::new`. -/
def WorkflowTableWidget.new (page_size : Nat) : WorkflowTableWidget :=
  { state :=
      { workflow_executions := []
        next_page_token := none
        loading_state := .Idle
        selected := none
        scrollbar_position := 0 }
    page_size := page_size
    mode := .Normal
    last_reload := none
    query := QueryInput.default }

/-- `WorkflowTableWidget::set_loading_state`: records the reload instant only
for `Reloaded`, then stores the new loading state. -/
def WorkflowTableWidget.set_loading_state (now : Nat) (w : WorkflowTableWidget)
    (loading_state : LoadingState) : WorkflowTableWidget :=
  let w :=
    match loading_state with
    | .Reloaded => { w with last_reload := some now }
    | _ => w
  { w with state := { w.state with loading_state := loading_state } }

/-- `WorkflowTableWidget::on_err`: records the error in the loading state and
then panics. -/
def WorkflowTableWidget.on_err (now : Nat) (w : WorkflowTableWidget) (err : String) :
    StepResult WorkflowTableWidget :=
  .panicked (WorkflowTableWidget.set_loading_state now w (.Error err))

/-- `WorkflowTableWidget::on_load`: converts the response rows (first failure
aborts via `on_err`), stores `Some(next_page_token)` unconditionally, clears
the rows when `clear`, appends the converted rows, and selects row 0 after a
non-empty clearing load. -/
def WorkflowTableWidget.on_load (now : Nat) (w : WorkflowTableWidget)
    (response : ListWorkflowExecutionsResponse) (clear : Bool) :
    StepResult WorkflowTableWidget :=
  match collectResults WorkflowExecution.tryFrom response.executions with
  | .error e => WorkflowTableWidget.on_err now w ("invalid workflow execution: " ++ e)
  | .ok executions =>
    let st := w.state
    let st := { st with next_page_token := some response.next_page_token }
    let st := if clear then { st with workflow_executions := [] } else st
    let st := { st with workflow_executions := st.workflow_executions ++ executions }
    let st :=
      if !st.workflow_executions.isEmpty && clear then { st with selected := some 0 } else st
    .ok { w with state := st }

/-- `WorkflowTableWidget::on_reload` = `on_load(response, true)` then state
`Reloaded` (the panic of a failed conversion propagates). -/
def WorkflowTableWidget.on_reload (now : Nat) (w : WorkflowTableWidget)
    (response : ListWorkflowExecutionsResponse) : StepResult WorkflowTableWidget :=
  match WorkflowTableWidget.on_load now w response true with
  | .panicked w' => .panicked w'
  | .ok w' => .ok (WorkflowTableWidget.set_loading_state now w' .Reloaded)

/-- `WorkflowTableWidget::on_page_load` = `on_load(response, false)` then state
`PageLoaded` (the panic of a failed conversion propagates). -/
def WorkflowTableWidget.on_page_load (now : Nat) (w : WorkflowTableWidget)
    (response : ListWorkflowExecutionsResponse) : StepResult WorkflowTableWidget :=
  match WorkflowTableWidget.on_load now w response false with
  | .panicked w' => .panicked w'
  | .ok w' => .ok (WorkflowTableWidget.set_loading_state now w' .PageLoaded)

/-- Events observable of the fetch task, used to state ordering guarantees:
`rpcCall m` is the remote call issued for message `m`, `completed m` the
completion of `m`'s state update. -/
inductive FetchEvent
  | rpcCall (msg : Message)
  | completed (msg : Message)
deriving DecidableEq

/-- One iteration of the `fetch_workflows` receive loop for one dequeued
message. `client` models `TemporalClient::list_workflow_executions`, taking
the page size, page token and query and returning the response or a transport
error. Returns the widget outcome together with the emitted fetch events; a
panicking iteration emits no completion event. -/
def WorkflowTableWidget.fetch_workflows_step
    (client : Nat → List Nat → String → Except String ListWorkflowExecutionsResponse)
    (now : Nat) (w : WorkflowTableWidget) (msg : Message) :
    StepResult WorkflowTableWidget × List FetchEvent :=
  match msg with
  | .Reload =>
    let w := WorkflowTableWidget.set_loading_state now w .Loading
    match client w.page_size [] w.query.queryString with
    | .ok response =>
      match WorkflowTableWidget.on_reload now w response with
      | .ok w' => (.ok w', [.rpcCall msg, .completed msg])
      | .panicked w' => (.panicked w', [.rpcCall msg])
    | .error e =>
      (WorkflowTableWidget.on_err now w ("list workflow executions request failed: " ++ e),
        [.rpcCall msg])
  | .LoadPage page_token =>
    let w := WorkflowTableWidget.set_loading_state now w .Loading
    match client w.page_size page_token w.query.queryString with
    | .ok response =>
      match WorkflowTableWidget.on_page_load now w response with
      | .ok w' => (.ok w', [.rpcCall msg, .completed msg])
      | .panicked w' => (.panicked w', [.rpcCall msg])
    | .error e =>
      (WorkflowTableWidget.on_err now w ("list workflow executions request failed: " ++ e),
        [.rpcCall msg])

/-- The `fetch_workflows` loop: the single consumer drains the queued messages
in submission order, finishing each one before receiving the next; a panic
kills the task, leaving the remaining messages unserved. -/
def WorkflowTableWidget.fetch_workflows
    (client : Nat → List Nat → String → Except String ListWorkflowExecutionsResponse)
    (now : Nat) (w : WorkflowTableWidget) :
    List Message → StepResult WorkflowTableWidget × List FetchEvent
  | [] => (.ok w, [])
  | msg :: msgs =>
    match WorkflowTableWidget.fetch_workflows_step client now w msg with
    | (.ok w', tr) =>
      let rest := WorkflowTableWidget.fetch_workflows client now w' msgs
      (rest.1, tr ++ rest.2)
    | (.panicked w', tr) => (.panicked w', tr)

/-- `WorkflowTableWidget::load_next_page`: sends `LoadPage` with the stored
token whenever one is present (returns the message sent, if any). -/
def WorkflowTableWidget.load_next_page (w : WorkflowTableWidget) : Option Message :=
  match w.state.next_page_token with
  | some page_token => some (Message.LoadPage page_token)
  | none => none

/-- `WorkflowTableWidget::is_on_last_row` (release-profile `len - 1`). -/
def WorkflowTableWidget.is_on_last_row (w : WorkflowTableWidget) : Bool :=
  match w.state.selected with
  | some i => decide (i ≥ usizeSub w.state.workflow_executions.length 1)
  | none => false

/-- Row height used for the scrollbar position. -/
def ITEM_HEIGHT : Nat := 1

/-- The selection update performed at the end of `WorkflowTableWidget::next_row`
once its wait loop has exited. -/
def WorkflowTableWidget.next_row_select (w : WorkflowTableWidget) : WorkflowTableWidget :=
  let st := w.state
  let i :=
    match st.selected with
    | some i =>
      if i ≥ usizeSub st.workflow_executions.length 1 then 0 else (i + 1) % USIZE
    | none => 0
  { w with state := { st with selected := some i, scrollbar_position := (i * ITEM_HEIGHT) % USIZE } }

/-- The cooperative wait loop of `WorkflowTableWidget::next_row`, with explicit
fuel for the yields, in a quiescent execution (no concurrent state change
while the caller spins — exactly the situation when no fetch is pending, in
particular when `next_row` enqueued nothing): while the selection stays on the
last row the loop yields again; `none` means the loop has not exited within
`fuel` yields. -/
def WorkflowTableWidget.next_row_loop (w : WorkflowTableWidget) :
    Nat → Option WorkflowTableWidget
  | 0 => none
  | n + 1 =>
    if WorkflowTableWidget.is_on_last_row w then WorkflowTableWidget.next_row_loop w n
    else some (WorkflowTableWidget.next_row_select w)

/-- A full `WorkflowTableWidget::next_row` call in a quiescent execution:
the message it enqueues (only when starting on the last row, and only when a
page token is stored), paired with the completed call's result (`none` when
the wait loop never exits within `fuel`). -/
def WorkflowTableWidget.next_row (w : WorkflowTableWidget) (fuel : Nat) :
    Option Message × Option WorkflowTableWidget :=
  let sent :=
    if WorkflowTableWidget.is_on_last_row w then WorkflowTableWidget.load_next_page w else none
  (sent, WorkflowTableWidget.next_row_loop w fuel)

/-- `WorkflowTableWidget::next_row`'s wait loop never exits, whatever the fuel
(quiescent execution). -/
def WorkflowTableWidget.next_row_diverges (w : WorkflowTableWidget) : Prop :=
  ∀ n, WorkflowTableWidget.next_row_loop w n = none

/-- `WorkflowTableWidget::previous_row` (release-profile `len - 1` and
`i - 1`): no page-loading side effect. -/
def WorkflowTableWidget.previous_row (w : WorkflowTableWidget) : WorkflowTableWidget :=
  let st := w.state
  let i :=
    match st.selected with
    | some i =>
      if i = 0 then usizeSub st.workflow_executions.length 1 else usizeSub i 1
    | none => 0
  { w with state := { st with selected := some i, scrollbar_position := (i * ITEM_HEIGHT) % USIZE } }

/-- `history::HistoryEvent` proto (fields the widget reads): raw event id,
optional raw timestamp, raw enum value of the event type, and the render-only
attribute payload kept opaque. -/
structure HistoryEvent where
  event_id : Int
  event_time : Option (Int × Nat)
  event_type : Int
  attributes : Option Nat
deriving DecidableEq

/-- `history::History` proto. -/
structure History where
  events : List HistoryEvent
deriving DecidableEq

/-- Validity of a raw `enums::EventType` value in the generated proto enum
(external collaborator; the generated variants cover 0 through 46). -/
def eventTypeValid (i : Int) : Bool := decide (0 ≤ i ∧ i ≤ 46)

/-- `EventWidget` from src/widgets/workflow.rs: a converted history event. -/
structure EventWidget where
  id : Int
  time : Option Int
  type : Int
  attributes : Option Nat
deriving DecidableEq

/-- `TryFrom<history::HistoryEvent> for EventWidget`: fails exactly when the
raw event type is not a valid enum value. -/
def EventWidget.tryFrom (e : HistoryEvent) : Except String EventWidget :=
  if eventTypeValid e.event_type then
    .ok
      { id := e.event_id
        time := e.event_time.bind (fun p => chronoFromTimestamp p.1 p.2)
        type := e.event_type
        attributes := e.attributes }
  else .error "invalid enum value for event type"

/-- `HistoryWidget` from src/widgets/workflow.rs (theme omitted). -/
structure HistoryWidget where
  events : List EventWidget
  next_page_token : Option (List Nat)
  display_event : Option Nat
deriving DecidableEq

/-- `HistoryWidget::extend_from_history`: pushes each event of the response
whose conversion succeeds; events failing conversion are skipped. -/
def HistoryWidget.extend_from_history (hw : HistoryWidget) (h : History) : HistoryWidget :=
  { hw with events := hw.events ++ h.events.filterMap (fun e => (EventWidget.tryFrom e).toOption) }

/-- `HistoryWidget::is_displaying_event`. -/
def HistoryWidget.is_displaying_event (hw : HistoryWidget) : Bool :=
  hw.display_event.isSome

/-- `Workflow` from src/widgets/workflow.rs: the shared detail-view data.
Pending activities are kept opaque (their conversion is not exercised by any
claim); `history_selected` models the `ratatui` TableState selection held in
`history_state`. -/
structure Workflow where
  pending_activities : List Nat
  execution : Option WorkflowExecution
  history : HistoryWidget
  history_selected : Option Nat
deriving DecidableEq

/-- `Workflow::default()`. -/
def Workflow.default : Workflow :=
  { pending_activities := []
    execution := none
    history := { events := [], next_page_token := none, display_event := none }
    history_selected := none }

/-- `WorkflowWidget` (client and theme omitted). -/
structure WorkflowWidget where
  workflow_id : String
  run_id : Option String
  workflow : Workflow
  last_reload : Option Nat
  loading_state : LoadingState
deriving DecidableEq

/-- `WorkflowWidget::new`. -/
def WorkflowWidget.new (workflow_id : String) (run_id : Option String) : WorkflowWidget :=
  { workflow_id := workflow_id
    run_id := run_id
    workflow := Workflow.default
    last_reload := none
    loading_state := .Idle }

/-- `WorkflowWidget::set_loading_state`: records the reload instant only for
`Reloaded`, then stores the new loading state. -/
def WorkflowWidget.set_loading_state (now : Nat) (w : WorkflowWidget)
    (loading_state : LoadingState) : WorkflowWidget :=
  let w :=
    match loading_state with
    | .Reloaded => { w with last_reload := some now }
    | _ => w
  { w with loading_state := loading_state }

/-- `WorkflowWidget::on_err`: records the error in the loading state and then
panics. -/
def WorkflowWidget.on_err (now : Nat) (w : WorkflowWidget) (err : String) :
    StepResult WorkflowWidget :=
  .panicked (WorkflowWidget.set_loading_state now w (.Error err))

/-- `service::GetWorkflowExecutionHistoryResponse` (fields the widget reads). -/
structure GetWorkflowExecutionHistoryResponse where
  history : Option History
  next_page_token : List Nat
deriving DecidableEq

/-- `WorkflowWidget::on_workflow_history_load`: when `clear`, empties the
events and resets the token to `None`; stores the response token only when it
is non-empty; extends the events from the response history when present; and
selects row 0 after a non-empty clearing load. Does not touch the loading
state. -/
def WorkflowWidget.on_workflow_history_load (w : WorkflowWidget)
    (response : GetWorkflowExecutionHistoryResponse) (clear : Bool) : WorkflowWidget :=
  let wf := w.workflow
  let hist := wf.history
  let hist := if clear then { hist with events := [], next_page_token := none } else hist
  let hist :=
    if !response.next_page_token.isEmpty then
      { hist with next_page_token := some response.next_page_token }
    else hist
  let hist :=
    match response.history with
    | some h => hist.extend_from_history h
    | none => hist
  let wf := { wf with history := hist }
  let wf :=
    if !wf.history.events.isEmpty && clear then { wf with history_selected := some 0 } else wf
  { w with workflow := wf }

/-- The handling of a `LoadPage` message by the `fetch_workflow` loop:
sets `Loading`, issues the history RPC (modelled by `client`, taking the
workflow id, run id and page token), and on success merges the page with
`on_workflow_history_load(response, false)` — no further loading-state
transition happens on this path; a failure goes through `on_err`. -/
def WorkflowWidget.fetch_workflow_load_page
    (client : String → Option String → List Nat → Except String GetWorkflowExecutionHistoryResponse)
    (now : Nat) (w : WorkflowWidget) (page_token : List Nat) : StepResult WorkflowWidget :=
  let w := WorkflowWidget.set_loading_state now w .Loading
  match client w.workflow_id w.run_id page_token with
  | .ok response => .ok (WorkflowWidget.on_workflow_history_load w response false)
  | .error e =>
    WorkflowWidget.on_err now w ("get workflow execution history request failed: " ++ e)

/-- `WorkflowWidget::get_selected_history_event`. -/
def WorkflowWidget.get_selected_history_event (w : WorkflowWidget) : Option Nat :=
  w.workflow.history_selected

/-- `WorkflowWidget::load_next_page`: sends `LoadPage` with the stored token
whenever one is present; returns the message sent (if any) together with the
boolean the Rust function returns. -/
def WorkflowWidget.load_next_page (w : WorkflowWidget) : Option Message × Bool :=
  match w.workflow.history.next_page_token with
  | some page_token => (some (Message.LoadPage page_token), true)
  | none => (none, false)

/-- `WorkflowWidget::is_on_last_row` (release-profile `len - 1`). -/
def WorkflowWidget.is_on_last_row (w : WorkflowWidget) : Bool :=
  match w.workflow.history_selected with
  | some i => decide (i ≥ usizeSub w.workflow.history.events.length 1)
  | none => false

/-- The selection update performed at the end of `WorkflowWidget::next_row`
once its wait loop has exited. -/
def WorkflowWidget.next_row_select (w : WorkflowWidget) : WorkflowWidget :=
  let i :=
    match w.workflow.history_selected with
    | some i =>
      if i ≥ usizeSub w.workflow.history.events.length 1 then 0 else (i + 1) % USIZE
    | none => 0
  { w with workflow := { w.workflow with history_selected := some i } }

/-- The cooperative wait loop of `WorkflowWidget::next_row` with explicit fuel,
in a quiescent execution: the loop yields again only while the selection is on
the last row AND a page load was actually triggered (`loading_next`); `none`
means the loop has not exited within `fuel` yields. -/
def WorkflowWidget.next_row_loop (w : WorkflowWidget) (loading_next : Bool) :
    Nat → Option WorkflowWidget
  | 0 => none
  | n + 1 =>
    if WorkflowWidget.is_on_last_row w && loading_next then
      WorkflowWidget.next_row_loop w loading_next n
    else some (WorkflowWidget.next_row_select w)

/-- A full `WorkflowWidget::next_row` call in a quiescent execution: the
message it enqueues (only when starting on the last row with a stored token),
paired with the completed call's result. -/
def WorkflowWidget.next_row (w : WorkflowWidget) (fuel : Nat) :
    Option Message × Option WorkflowWidget :=
  let r := if WorkflowWidget.is_on_last_row w then WorkflowWidget.load_next_page w
           else (none, false)
  (r.1, WorkflowWidget.next_row_loop w r.2 fuel)

/-- `WorkflowWidget::previous_row` (release-profile `len - 1`): no page-loading
side effect. -/
def WorkflowWidget.previous_row (w : WorkflowWidget) : WorkflowWidget :=
  let i :=
    match w.workflow.history_selected with
    | some i => if i = 0 then usizeSub w.workflow.history.events.length 1 else i - 1
    | none => 0
  { w with workflow := { w.workflow with history_selected := some i } }

/-- Outcome of the Escape key in the detail view: either stay on the (updated)
detail view, or hand a brand-new workflow-table view to the application. -/
inductive EscOutcome
  | stay (w : WorkflowWidget)
  | toTable (t : WorkflowTableWidget)
deriving DecidableEq

/-- The `Esc` branch of `WorkflowWidget::handle_key`: while a history event is
expanded, only collapse it (`clear_display_event`); otherwise construct a
brand-new `WorkflowTableWidget` with page size 48. -/
def WorkflowWidget.handle_esc (w : WorkflowWidget) : EscOutcome :=
  if w.workflow.history.is_displaying_event then
    .stay
      { w with workflow :=
          { w.workflow with history := { w.workflow.history with display_event := none } } }
  else .toTable (WorkflowTableWidget.new 48)

/-! ### Helper lemmas -/

theorem StepResult.get_of_eq_ok {σ : Type} {x : StepResult σ} {s : σ} (h : x = .ok s) :
    x.get = s := by
  rw [h]; rfl

theorem usizeSub_one {a : Nat} (h1 : 1 ≤ a) (h2 : a < USIZE) : usizeSub a 1 = a - 1 := by
  simp only [usizeSub, USIZE] at *
  omega

theorem collectResults_ok_filterMap {α β : Type} (f : α → Except String β) :
    ∀ (xs : List α) (l : List β), collectResults f xs = .ok l →
      xs.filterMap (fun x => (f x).toOption) = l := by
  intro xs
  induction xs with
  | nil => intro l h; simp only [collectResults] at h; cases h; rfl
  | cons x xs ih =>
    intro l h
    simp only [collectResults] at h
    cases hx : f x with
    | error e => rw [hx] at h; cases h
    | ok b =>
      rw [hx] at h
      cases hr : collectResults f xs with
      | error e => rw [hr] at h; cases h
      | ok bs =>
        rw [hr] at h
        cases h
        have hx' : (f x).toOption = some b := by rw [hx]; rfl
        simp only [List.filterMap_cons, hx']
        rw [ih bs hr]

theorem on_load_ok (now : Nat) (w : WorkflowTableWidget)
    (resp : ListWorkflowExecutionsResponse) (clear : Bool) (execs : List WorkflowExecution)
    (hc : collectResults WorkflowExecution.tryFrom resp.executions = .ok execs) :
    (WorkflowTableWidget.on_load now w resp clear).isOk = true ∧
    (WorkflowTableWidget.on_load now w resp clear).get.state.next_page_token =
      some resp.next_page_token ∧
    (WorkflowTableWidget.on_load now w resp clear).get.state.workflow_executions =
      (if clear then [] else w.state.workflow_executions) ++ execs ∧
    (WorkflowTableWidget.on_load now w resp clear).get.state.loading_state =
      w.state.loading_state ∧
    (WorkflowTableWidget.on_load now w resp clear).get.last_reload = w.last_reload ∧
    (clear = false →
      (WorkflowTableWidget.on_load now w resp clear).get.state.selected = w.state.selected) := by
  simp only [WorkflowTableWidget.on_load, hc]
  cases clear <;>
    refine ⟨rfl, ?_, ?_, ?_, ?_, ?_⟩ <;>
    simp [StepResult.get] <;>
    split <;> simp

theorem on_load_err (now : Nat) (w : WorkflowTableWidget)
    (resp : ListWorkflowExecutionsResponse) (clear : Bool) (e : String)
    (hc : collectResults WorkflowExecution.tryFrom resp.executions = .error e) :
    WorkflowTableWidget.on_load now w resp clear =
      .panicked (WorkflowTableWidget.set_loading_state now w
        (.Error ("invalid workflow execution: " ++ e))) := by
  simp [WorkflowTableWidget.on_load, hc, WorkflowTableWidget.on_err]

theorem set_loading_state_table_fields (now : Nat) (w : WorkflowTableWidget)
    (ls : LoadingState) :
    (WorkflowTableWidget.set_loading_state now w ls).state.loading_state = ls ∧
    (WorkflowTableWidget.set_loading_state now w ls).state.workflow_executions =
      w.state.workflow_executions ∧
    (WorkflowTableWidget.set_loading_state now w ls).state.next_page_token =
      w.state.next_page_token ∧
    (WorkflowTableWidget.set_loading_state now w ls).state.selected = w.state.selected ∧
    (WorkflowTableWidget.set_loading_state now w ls).last_reload =
      (if ls = LoadingState.Reloaded then some now else w.last_reload) := by
  cases ls <;> simp [WorkflowTableWidget.set_loading_state]

theorem set_loading_state_workflow_fields (now : Nat) (v : WorkflowWidget)
    (ls : LoadingState) :
    (WorkflowWidget.set_loading_state now v ls).loading_state = ls ∧
    (WorkflowWidget.set_loading_state now v ls).workflow = v.workflow ∧
    (WorkflowWidget.set_loading_state now v ls).last_reload =
      (if ls = LoadingState.Reloaded then some now else v.last_reload) := by
  cases ls <;> simp [WorkflowWidget.set_loading_state]

/-! ### Claim theorems -/

/-- C10: across both widgets, `set_loading_state` updates the last-reload
timestamp exactly when the new state is `Reloaded`; every other transition
(`Loading`, `PageLoaded`, `Idle`, `Error`) leaves it unchanged, and in
particular a successful (or failed) page append through `on_page_load` never
refreshes the timestamp read by `get_duration_since_last_reload`. -/
theorem c10_theorem : ∀ (now : Nat) (ls : LoadingState) (w : WorkflowTableWidget)
    (v : WorkflowWidget) (resp : ListWorkflowExecutionsResponse),
    (WorkflowTableWidget.set_loading_state now w ls).last_reload =
      (if ls = LoadingState.Reloaded then some now else w.last_reload) ∧
    (WorkflowTableWidget.set_loading_state now w ls).state.loading_state = ls ∧
    (WorkflowWidget.set_loading_state now v ls).last_reload =
      (if ls = LoadingState.Reloaded then some now else v.last_reload) ∧
    (WorkflowWidget.set_loading_state now v ls).loading_state = ls ∧
    (WorkflowTableWidget.on_page_load now w resp).get.last_reload = w.last_reload := by
  intro now ls w v resp
  refine ⟨(set_loading_state_table_fields now w ls).2.2.2.2,
    (set_loading_state_table_fields now w ls).1,
    (set_loading_state_workflow_fields now v ls).2.2,
    (set_loading_state_workflow_fields now v ls).1, ?_⟩
  unfold WorkflowTableWidget.on_page_load
  cases hc : collectResults WorkflowExecution.tryFrom resp.executions with
  | error e =>
    rw [on_load_err now w resp false e hc]
    simp [StepResult.get, WorkflowTableWidget.set_loading_state]
  | ok execs =>
    have h := on_load_ok now w resp false execs hc
    cases hl : WorkflowTableWidget.on_load now w resp false with
    | panicked w' => rw [hl] at h; cases h.1
    | ok w' =>
      have hlr : w'.last_reload = w.last_reload := by
        have := h.2.2.2.2.1
        rw [StepResult.get_of_eq_ok hl] at this
        exact this
      simp [StepResult.get, (set_loading_state_table_fields now w' .PageLoaded).2.2.2.2, hlr]

def clientFail : Nat → List Nat → String → Except String ListWorkflowExecutionsResponse :=
  fun _ _ _ => .error "boom"

/-- C3: a remote-call failure observed by the table's fetch task is recorded as
`LoadingState::Error(message)`, but then `on_err` executes a panic: the fetch
task does not return normally — contradicting the propagation policy
(spec.md itself flags this abort as a defect of the implementation). -/
theorem c3_theorem :
    ((WorkflowTableWidget.fetch_workflows_step clientFail 0 (WorkflowTableWidget.new 48)
        Message.Reload).1).isPanicked = true ∧
    ((WorkflowTableWidget.fetch_workflows_step clientFail 0 (WorkflowTableWidget.new 48)
        Message.Reload).1).get.state.loading_state =
      LoadingState.Error "list workflow executions request failed: boom" := by
  constructor <;> rfl

def c1RespTable : ListWorkflowExecutionsResponse :=
  { executions := [], next_page_token := [7] }

def c1RespHist : GetWorkflowExecutionHistoryResponse :=
  { history := none, next_page_token := [] }

def c1TableAfter : WorkflowTableWidget :=
  { WorkflowTableWidget.new 48 with
    state := { (WorkflowTableWidget.new 48).state with next_page_token := some [7] } }

/-- C1 counterexample: processing a page response whose continuation token is
empty leaves the workflow table with `next_page_token = Some(vec![])`, not
`None` — the exhaustion predicate is false although the most recent page
response carried an empty continuation token, refuting the claimed
equivalence (and the claimed normalization of empty cursors). -/
theorem c1_counterexample :
    ((WorkflowTableWidget.on_load 0 (WorkflowTableWidget.new 48)
        { executions := [], next_page_token := [] } false).get).state.next_page_token =
      some [] ∧
    some ([] : List Nat) ≠ (none : Option (List Nat)) := by
  constructor
  · rfl
  · simp

/-- C1 amended: the exhaustion normalization only happens for workflow-history
reloads. After a history clear-and-replace load the cursor is `none` iff the
response token is empty; after a history append an empty response token leaves
the previous cursor unchanged (no normalization to exhausted); and after any
successful workflow-table load the cursor is always `some` of the response
token, empty or not, so the table's exhaustion predicate never holds after
processing a page response. -/
theorem c1_amended (now : Nat) (w : WorkflowTableWidget)
    (resp : ListWorkflowExecutionsResponse) (clear : Bool) (w' : WorkflowTableWidget)
    (v : WorkflowWidget) (hresp : GetWorkflowExecutionHistoryResponse)
    (h : WorkflowTableWidget.on_load now w resp clear = .ok w') :
    w'.state.next_page_token = some resp.next_page_token ∧
    ((WorkflowWidget.on_workflow_history_load v hresp true).workflow.history.next_page_token =
      if hresp.next_page_token.isEmpty then none else some hresp.next_page_token) ∧
    ((WorkflowWidget.on_workflow_history_load v hresp false).workflow.history.next_page_token =
      if hresp.next_page_token.isEmpty then v.workflow.history.next_page_token
      else some hresp.next_page_token) := by
  refine ⟨?_, ?_, ?_⟩
  · cases hc : collectResults WorkflowExecution.tryFrom resp.executions with
    | error e => rw [on_load_err now w resp clear e hc] at h; cases h
    | ok execs =>
      have := (on_load_ok now w resp clear execs hc).2.1
      rw [StepResult.get_of_eq_ok h] at this
      exact this
  · unfold WorkflowWidget.on_workflow_history_load
    cases he : hresp.next_page_token.isEmpty <;>
      cases hresp.history <;>
      simp [he, HistoryWidget.extend_from_history] <;>
      split <;> simp
  · unfold WorkflowWidget.on_workflow_history_load
    cases he : hresp.next_page_token.isEmpty <;>
      cases hresp.history <;>
      simp [he, HistoryWidget.extend_from_history]

/-- C1 witness: the amended statement at a concrete input — a successful
clearing table load with token `[7]`, and a history reload/append with an
empty response token. -/
theorem c1_witness :
    c1TableAfter.state.next_page_token = some c1RespTable.next_page_token ∧
    ((WorkflowWidget.on_workflow_history_load (WorkflowWidget.new "wf" none) c1RespHist
        true).workflow.history.next_page_token =
      if c1RespHist.next_page_token.isEmpty then none else some c1RespHist.next_page_token) ∧
    ((WorkflowWidget.on_workflow_history_load (WorkflowWidget.new "wf" none) c1RespHist
        false).workflow.history.next_page_token =
      if c1RespHist.next_page_token.isEmpty then
        (WorkflowWidget.new "wf" none).workflow.history.next_page_token
      else some c1RespHist.next_page_token) :=
  c1_amended 0 (WorkflowTableWidget.new 48) c1RespTable true c1TableAfter
    (WorkflowWidget.new "wf" none) c1RespHist (by decide)

theorem table_next_row_loop_diverges (w : WorkflowTableWidget)
    (h : WorkflowTableWidget.is_on_last_row w = true) :
    WorkflowTableWidget.next_row_diverges w := by
  intro n
  induction n with
  | zero => rfl
  | succ k ih => simp [WorkflowTableWidget.next_row_loop, h, ih]

theorem table_next_row_loop_some (w x : WorkflowTableWidget) :
    ∀ n, WorkflowTableWidget.next_row_loop w n = some x →
      x = WorkflowTableWidget.next_row_select w := by
  intro n
  induction n with
  | zero => intro h; cases h
  | succ k ih =>
    intro h
    by_cases hl : WorkflowTableWidget.is_on_last_row w = true
    · rw [WorkflowTableWidget.next_row_loop, if_pos hl] at h
      exact ih h
    · rw [WorkflowTableWidget.next_row_loop, if_neg hl] at h
      cases h
      rfl

def exec0 : WorkflowExecution :=
  { status := .Running
    type := "GreetWorkflow"
    workflow_id := "wf-1"
    run_id := "run-1"
    task_queue := "default"
    start_time := none
    close_time := none
    execution_time := none
    execution_duration := none
    history_size_bytes := 0 }

def eventW0 : EventWidget := { id := 1, time := none, type := 1, attributes := none }

/-- A workflow table showing one loaded row, cursor exhausted, selection on the
last (only) row. -/
def tableExhaustedLast : WorkflowTableWidget :=
  { WorkflowTableWidget.new 48 with
    state :=
      { workflow_executions := [exec0]
        next_page_token := none
        loading_state := .Reloaded
        selected := some 0
        scrollbar_position := 0 } }

/-- A detail view showing one loaded history event, cursor exhausted,
selection on the last (only) row. -/
def wwExhaustedLast : WorkflowWidget :=
  { WorkflowWidget.new "wf-1" none with
    workflow :=
      { pending_activities := []
        execution := none
        history := { events := [eventW0], next_page_token := none, display_event := none }
        history_selected := some 0 } }

/-- C2 counterexample: on the workflow table with an exhausted cursor and the
selection on the last row, `next_row` enqueues no `LoadPage`, but its wait
loop (whose condition only checks `is_on_last_row`) never exits — the call
does not terminate, so the selection is never wrapped to 0, refuting the
claimed termination for this collection. -/
theorem c2_counterexample :
    WorkflowTableWidget.next_row_diverges tableExhaustedLast ∧
    (WorkflowTableWidget.next_row tableExhaustedLast 1).1 = none :=
  ⟨table_next_row_loop_diverges tableExhaustedLast (by decide), by decide⟩

/-- C2 amended: on the workflow-history collection, `next_row` at the last row
of an exhausted collection sends no fetch and terminates at the first loop
check with the selection wrapped to 0; on the workflow-table collection it
likewise sends no fetch, but the wait loop never exits (no wrap occurs). -/
theorem c2_amended (wt : WorkflowTableWidget) (ww : WorkflowWidget) (fuel : Nat)
    (ht1 : wt.state.next_page_token = none)
    (ht2 : WorkflowTableWidget.is_on_last_row wt = true)
    (hw1 : ww.workflow.history.next_page_token = none)
    (hw2 : WorkflowWidget.is_on_last_row ww = true)
    (hf : 1 ≤ fuel) :
    (WorkflowTableWidget.next_row wt fuel).1 = none ∧
    WorkflowTableWidget.next_row_diverges wt ∧
    WorkflowWidget.next_row ww fuel = (none, some (WorkflowWidget.next_row_select ww)) ∧
    (WorkflowWidget.next_row_select ww).workflow.history_selected = some 0 := by
  refine ⟨?_, table_next_row_loop_diverges wt ht2, ?_, ?_⟩
  · simp [WorkflowTableWidget.next_row, ht2, WorkflowTableWidget.load_next_page, ht1]
  · cases fuel with
    | zero => omega
    | succ k =>
      simp [WorkflowWidget.next_row, ht2, hw2, WorkflowWidget.load_next_page, hw1,
        WorkflowWidget.next_row_loop]
  · unfold WorkflowWidget.is_on_last_row at hw2
    cases hsel : ww.workflow.history_selected with
    | none => rw [hsel] at hw2; cases hw2
    | some i =>
      rw [hsel] at hw2
      have hi : i ≥ usizeSub ww.workflow.history.events.length 1 := of_decide_eq_true hw2
      simp [WorkflowWidget.next_row_select, hsel, hi]

/-- C2 witness: the amended statement at the two concrete exhausted-last-row
states above. -/
theorem c2_witness :
    (WorkflowTableWidget.next_row tableExhaustedLast 1).1 = none ∧
    WorkflowTableWidget.next_row_diverges tableExhaustedLast ∧
    WorkflowWidget.next_row wwExhaustedLast 1 =
      (none, some (WorkflowWidget.next_row_select wwExhaustedLast)) ∧
    (WorkflowWidget.next_row_select wwExhaustedLast).workflow.history_selected = some 0 :=
  c2_amended tableExhaustedLast wwExhaustedLast 1 (by decide) (by decide) (by decide)
    (by decide) (by decide)

/-- C4 counterexample: on an empty workflow table with no selection, `next_row`
completes at once without any fetch yet sets the selection to index 0 (not a
no-op, and 0 is not less than the row count 0); `previous_row` does the same —
refuting the claimed no-op behaviour on empty collections. -/
theorem c4_counterexample :
    ((WorkflowTableWidget.next_row (WorkflowTableWidget.new 48) 1).2).map
        (fun v => v.state.selected) = some (some 0) ∧
    (WorkflowTableWidget.next_row (WorkflowTableWidget.new 48) 1).1 = none ∧
    (WorkflowTableWidget.previous_row (WorkflowTableWidget.new 48)).state.selected =
      some 0 := by
  refine ⟨by decide, by decide, by decide⟩

/-- C4 amended: on an empty collection with no selection, the navigation
operations are not no-ops — both set the selection to index 0 (violating
`index < rows.len()`), though neither triggers a fetch; on a non-empty
collection, a completed `next_row` always leaves the index strictly below the
row count, and `previous_row` does provided the prior index was in bounds. -/
theorem c4_amended (w : WorkflowTableWidget) (fuel : Nat) :
    (w.state.workflow_executions = [] → w.state.selected = none → 1 ≤ fuel →
      WorkflowTableWidget.next_row w fuel =
        (none, some (WorkflowTableWidget.next_row_select w)) ∧
      (WorkflowTableWidget.next_row_select w).state.selected = some 0 ∧
      (WorkflowTableWidget.next_row_select w).state.workflow_executions = [] ∧
      (WorkflowTableWidget.previous_row w).state.selected = some 0) ∧
    (1 ≤ w.state.workflow_executions.length → w.state.workflow_executions.length < USIZE →
      ∀ w', (WorkflowTableWidget.next_row w fuel).2 = some w' →
        ∃ j, w'.state.selected = some j ∧ j < w.state.workflow_executions.length) ∧
    (1 ≤ w.state.workflow_executions.length → w.state.workflow_executions.length < USIZE →
      (∀ i, w.state.selected = some i → i < w.state.workflow_executions.length) →
      ∃ j, (WorkflowTableWidget.previous_row w).state.selected = some j ∧
        j < w.state.workflow_executions.length) := by
  refine ⟨?_, ?_, ?_⟩
  · intro he hs hf
    have hlast : WorkflowTableWidget.is_on_last_row w = false := by
      simp [WorkflowTableWidget.is_on_last_row, hs]
    cases fuel with
    | zero => omega
    | succ k =>
      refine ⟨by simp [WorkflowTableWidget.next_row, hlast,
        WorkflowTableWidget.next_row_loop], ?_, ?_, ?_⟩
      · simp [WorkflowTableWidget.next_row_select, hs]
      · simp [WorkflowTableWidget.next_row_select, hs, he]
      · simp [WorkflowTableWidget.previous_row, hs]
  · intro hlen hbound w' hw'
    have hx : w' = WorkflowTableWidget.next_row_select w :=
      table_next_row_loop_some w w' fuel hw'
    subst hx
    have hsub : usizeSub w.state.workflow_executions.length 1 =
        w.state.workflow_executions.length - 1 := usizeSub_one hlen hbound
    cases hs : w.state.selected with
    | none =>
      exact ⟨0, by simp [WorkflowTableWidget.next_row_select, hs], by omega⟩
    | some i =>
      by_cases hige : i ≥ usizeSub w.state.workflow_executions.length 1
      · exact ⟨0, by simp [WorkflowTableWidget.next_row_select, hs, hige], by omega⟩
      · refine ⟨(i + 1) % USIZE, by simp [WorkflowTableWidget.next_row_select, hs, hige], ?_⟩
        rw [hsub] at hige
        have hi1 : i + 1 < w.state.workflow_executions.length := by omega
        rw [Nat.mod_eq_of_lt (by omega)]
        exact hi1
  · intro hlen hbound hsel
    have hsub : usizeSub w.state.workflow_executions.length 1 =
        w.state.workflow_executions.length - 1 := usizeSub_one hlen hbound
    cases hs : w.state.selected with
    | none =>
      exact ⟨0, by simp [WorkflowTableWidget.previous_row, hs], by omega⟩
    | some i =>
      have hi : i < w.state.workflow_executions.length := hsel i hs
      by_cases h0 : i = 0
      · refine ⟨usizeSub w.state.workflow_executions.length 1,
          by simp [WorkflowTableWidget.previous_row, hs, h0], by omega⟩
      · refine ⟨usizeSub i 1, by simp [WorkflowTableWidget.previous_row, hs, h0], ?_⟩
        have : usizeSub i 1 = i - 1 := usizeSub_one (by omega) (by omega)
        omega

/-- C4 witness: the amended statement at concrete inputs — the empty fresh
table for the empty-collection part, and the one-row table for the bounds
parts. -/
theorem c4_witness :
    (WorkflowTableWidget.next_row (WorkflowTableWidget.new 48) 1 =
      (none, some (WorkflowTableWidget.next_row_select (WorkflowTableWidget.new 48)))) ∧
    (∃ j, (WorkflowTableWidget.previous_row tableExhaustedLast).state.selected = some j ∧
      j < tableExhaustedLast.state.workflow_executions.length) := by
  constructor
  · exact ((c4_amended (WorkflowTableWidget.new 48) 1).1 rfl rfl (by decide)).1
  · refine (c4_amended tableExhaustedLast 1).2.2 (by decide) (by decide) ?_
    intro i hi
    have h0 : (some 0 : Option Nat) = some i := by
      have : tableExhaustedLast.state.selected = some 0 := by decide
      rw [← this, hi]
    cases h0
    decide

theorem set_loading_state_workflow_ids (now : Nat) (v : WorkflowWidget) (ls : LoadingState) :
    (WorkflowWidget.set_loading_state now v ls).workflow_id = v.workflow_id ∧
    (WorkflowWidget.set_loading_state now v ls).run_id = v.run_id := by
  cases ls <;> simp [WorkflowWidget.set_loading_state]

theorem whl_false (v : WorkflowWidget) (resp : GetWorkflowExecutionHistoryResponse) :
    (WorkflowWidget.on_workflow_history_load v resp false).loading_state = v.loading_state ∧
    (∀ h, resp.history = some h →
      (WorkflowWidget.on_workflow_history_load v resp false).workflow.history.events =
        v.workflow.history.events ++
          h.events.filterMap (fun e => (EventWidget.tryFrom e).toOption)) := by
  unfold WorkflowWidget.on_workflow_history_load
  cases hh : resp.history <;> cases he : resp.next_page_token.isEmpty <;>
    simp [he, HistoryWidget.extend_from_history]

theorem whl_true (v : WorkflowWidget) (resp : GetWorkflowExecutionHistoryResponse) :
    (∀ h, resp.history = some h →
      (WorkflowWidget.on_workflow_history_load v resp true).workflow.history.events =
        h.events.filterMap (fun e => (EventWidget.tryFrom e).toOption)) ∧
    ((WorkflowWidget.on_workflow_history_load v resp true).workflow.history.next_page_token =
      if resp.next_page_token.isEmpty then none else some resp.next_page_token) := by
  unfold WorkflowWidget.on_workflow_history_load
  cases hh : resp.history <;> cases he : resp.next_page_token.isEmpty <;>
    simp [he, HistoryWidget.extend_from_history] <;>
    split <;> simp

def histEvent1 : HistoryEvent :=
  { event_id := 1, event_time := none, event_type := 1, attributes := none }

def c5Resp : GetWorkflowExecutionHistoryResponse :=
  { history := some { events := [histEvent1] }, next_page_token := [] }

def c5Client : String → Option String → List Nat →
    Except String GetWorkflowExecutionHistoryResponse :=
  fun _ _ _ => .ok c5Resp

/-- C5 counterexample: a successful workflow-history page load (`LoadPage`
handling in `fetch_workflow`) never sets `PageLoaded` — the loading state is
set to `Loading` at the start of the request and no transition follows the
successful merge, refuting the claimed `PageLoaded` transition for this
controller. -/
theorem c5_counterexample :
    (WorkflowWidget.fetch_workflow_load_page c5Client 0 (WorkflowWidget.new "wf-1" none)
        [9]).get.loading_state = LoadingState.Loading ∧
    LoadingState.Loading ≠ LoadingState.PageLoaded := by
  exact ⟨by decide, by decide⟩

/-- C5 amended: an append load preserves all previously loaded rows in order
with the response's rows appended strictly after them, on both collections;
on success the workflow-table controller sets `PageLoaded`, but the
workflow-history page load leaves the loading state at `Loading`. -/
theorem c5_amended (now : Nat) (w : WorkflowTableWidget)
    (resp : ListWorkflowExecutionsResponse) (execs : List WorkflowExecution)
    (v : WorkflowWidget)
    (client : String → Option String → List Nat →
      Except String GetWorkflowExecutionHistoryResponse)
    (tok : List Nat) (hresp : GetWorkflowExecutionHistoryResponse) (h : History)
    (evs : List EventWidget)
    (hc : collectResults WorkflowExecution.tryFrom resp.executions = .ok execs)
    (hh : client v.workflow_id v.run_id tok = .ok hresp)
    (hh2 : hresp.history = some h)
    (hc2 : collectResults EventWidget.tryFrom h.events = .ok evs) :
    (WorkflowTableWidget.on_page_load now w resp).isOk = true ∧
    (WorkflowTableWidget.on_page_load now w resp).get.state.workflow_executions =
      w.state.workflow_executions ++ execs ∧
    (WorkflowTableWidget.on_page_load now w resp).get.state.loading_state =
      LoadingState.PageLoaded ∧
    (WorkflowTableWidget.on_page_load now w resp).get.state.selected = w.state.selected ∧
    (WorkflowWidget.fetch_workflow_load_page client now v tok).isOk = true ∧
    (WorkflowWidget.fetch_workflow_load_page client now v tok).get.workflow.history.events =
      v.workflow.history.events ++ evs ∧
    (WorkflowWidget.fetch_workflow_load_page client now v tok).get.loading_state =
      LoadingState.Loading := by
  have htab := on_load_ok now w resp false execs hc
  have hfm := collectResults_ok_filterMap EventWidget.tryFrom h.events evs hc2
  have hid := set_loading_state_workflow_ids now v .Loading
  have hvf := set_loading_state_workflow_fields now v .Loading
  cases hl : WorkflowTableWidget.on_load now w resp false with
  | panicked w1 => rw [hl] at htab; cases htab.1
  | ok w1 =>
    have hw1 := StepResult.get_of_eq_ok hl
    have hrows : w1.state.workflow_executions = w.state.workflow_executions ++ execs := by
      have := htab.2.2.1
      rw [hw1] at this
      simpa using this
    have hsel : w1.state.selected = w.state.selected := by
      have := htab.2.2.2.2.2 rfl
      rw [hw1] at this
      exact this
    have hstep : WorkflowWidget.fetch_workflow_load_page client now v tok =
        .ok (WorkflowWidget.on_workflow_history_load
          (WorkflowWidget.set_loading_state now v .Loading) hresp false) := by
      simp only [WorkflowWidget.fetch_workflow_load_page, hid.1, hid.2, hh]
    have hload := whl_false (WorkflowWidget.set_loading_state now v .Loading) hresp
    refine ⟨?_, ?_, ?_, ?_, ?_, ?_, ?_⟩
    · simp [WorkflowTableWidget.on_page_load, hl, StepResult.isOk]
    · simp [WorkflowTableWidget.on_page_load, hl, StepResult.get,
        (set_loading_state_table_fields now w1 .PageLoaded).2.1, hrows]
    · simp [WorkflowTableWidget.on_page_load, hl, StepResult.get,
        (set_loading_state_table_fields now w1 .PageLoaded).1]
    · simp [WorkflowTableWidget.on_page_load, hl, StepResult.get,
        (set_loading_state_table_fields now w1 .PageLoaded).2.2.2.1, hsel]
    · simp [hstep, StepResult.isOk]
    · rw [hstep]
      simp only [StepResult.get]
      rw [hload.2 h hh2, hvf.2.1, hfm]
    · rw [hstep]
      simp only [StepResult.get]
      rw [hload.1, hvf.1]

/-- C5 witness: the amended statement at concrete inputs — a one-row table
page append and a one-event history page load. -/
theorem c5_witness :
    (WorkflowTableWidget.on_page_load 0 tableExhaustedLast
      { executions := [], next_page_token := [1] }).isOk = true ∧
    (WorkflowTableWidget.on_page_load 0 tableExhaustedLast
      { executions := [], next_page_token := [1] }).get.state.workflow_executions =
      tableExhaustedLast.state.workflow_executions ++ [] ∧
    (WorkflowTableWidget.on_page_load 0 tableExhaustedLast
      { executions := [], next_page_token := [1] }).get.state.loading_state =
      LoadingState.PageLoaded ∧
    (WorkflowTableWidget.on_page_load 0 tableExhaustedLast
      { executions := [], next_page_token := [1] }).get.state.selected =
      tableExhaustedLast.state.selected ∧
    (WorkflowWidget.fetch_workflow_load_page c5Client 0 (WorkflowWidget.new "wf-1" none)
      [9]).isOk = true ∧
    (WorkflowWidget.fetch_workflow_load_page c5Client 0 (WorkflowWidget.new "wf-1" none)
      [9]).get.workflow.history.events =
      (WorkflowWidget.new "wf-1" none).workflow.history.events ++ [eventW0] ∧
    (WorkflowWidget.fetch_workflow_load_page c5Client 0 (WorkflowWidget.new "wf-1" none)
      [9]).get.loading_state = LoadingState.Loading :=
  c5_amended 0 tableExhaustedLast { executions := [], next_page_token := [1] } []
    (WorkflowWidget.new "wf-1" none) c5Client [9] c5Resp { events := [histEvent1] } [eventW0]
    (by decide) (by decide) (by decide) (by decide)

/-- C6: a clear-and-replace load resets rows and cursor: afterwards the
workflow table holds exactly the response's converted rows with
`next_page_token = Some(response token)` and state `Reloaded`, and the
workflow-history collection holds exactly the response's converted events with
the cursor determined solely by the response token — none of the prior rows
remains in either collection. -/
theorem c6_theorem (now : Nat) (w : WorkflowTableWidget)
    (resp : ListWorkflowExecutionsResponse) (execs : List WorkflowExecution)
    (v : WorkflowWidget) (hresp : GetWorkflowExecutionHistoryResponse) (h : History)
    (evs : List EventWidget)
    (hc : collectResults WorkflowExecution.tryFrom resp.executions = .ok execs)
    (hh : hresp.history = some h)
    (hc2 : collectResults EventWidget.tryFrom h.events = .ok evs) :
    (WorkflowTableWidget.on_reload now w resp).isOk = true ∧
    (WorkflowTableWidget.on_reload now w resp).get.state.workflow_executions = execs ∧
    (WorkflowTableWidget.on_reload now w resp).get.state.next_page_token =
      some resp.next_page_token ∧
    (WorkflowTableWidget.on_reload now w resp).get.state.loading_state =
      LoadingState.Reloaded ∧
    (WorkflowWidget.on_workflow_history_load v hresp true).workflow.history.events = evs ∧
    ((WorkflowWidget.on_workflow_history_load v hresp true).workflow.history.next_page_token =
      if hresp.next_page_token.isEmpty then none else some hresp.next_page_token) := by
  have htab := on_load_ok now w resp true execs hc
  have hfm := collectResults_ok_filterMap EventWidget.tryFrom h.events evs hc2
  cases hl : WorkflowTableWidget.on_load now w resp true with
  | panicked w1 => rw [hl] at htab; cases htab.1
  | ok w1 =>
    have hw1 := StepResult.get_of_eq_ok hl
    have hrows : w1.state.workflow_executions = execs := by
      have := htab.2.2.1
      rw [hw1] at this
      simpa using this
    have htok : w1.state.next_page_token = some resp.next_page_token := by
      have := htab.2.1
      rw [hw1] at this
      exact this
    refine ⟨?_, ?_, ?_, ?_, ?_, (whl_true v hresp).2⟩
    · simp [WorkflowTableWidget.on_reload, hl, StepResult.isOk]
    · simp [WorkflowTableWidget.on_reload, hl, StepResult.get,
        (set_loading_state_table_fields now w1 .Reloaded).2.1, hrows]
    · simp [WorkflowTableWidget.on_reload, hl, StepResult.get,
        (set_loading_state_table_fields now w1 .Reloaded).2.2.1, htok]
    · simp [WorkflowTableWidget.on_reload, hl, StepResult.get,
        (set_loading_state_table_fields now w1 .Reloaded).1]
    · rw [(whl_true v hresp).1 h hh, hfm]

def execInfo0 : WorkflowExecutionInfo :=
  { execution := some ("wf-1", "run-1")
    type := some "GreetWorkflow"
    status := 1
    task_queue := "default"
    start_time := none
    close_time := none
    execution_time := none
    execution_duration := none
    history_size_bytes := 0 }

/-- C6 witness: the amended statement at concrete inputs — a one-row table
reload over existing state, and a one-event history reload. -/
theorem c6_witness :
    (WorkflowTableWidget.on_reload 0 tableExhaustedLast
      { executions := [execInfo0], next_page_token := [] }).isOk = true ∧
    (WorkflowTableWidget.on_reload 0 tableExhaustedLast
      { executions := [execInfo0], next_page_token := [] }).get.state.workflow_executions =
      [exec0] ∧
    (WorkflowTableWidget.on_reload 0 tableExhaustedLast
      { executions := [execInfo0], next_page_token := [] }).get.state.next_page_token =
      some [] ∧
    (WorkflowTableWidget.on_reload 0 tableExhaustedLast
      { executions := [execInfo0], next_page_token := [] }).get.state.loading_state =
      LoadingState.Reloaded ∧
    (WorkflowWidget.on_workflow_history_load wwExhaustedLast c5Resp
      true).workflow.history.events = [eventW0] ∧
    ((WorkflowWidget.on_workflow_history_load wwExhaustedLast c5Resp
      true).workflow.history.next_page_token =
      if c5Resp.next_page_token.isEmpty then none else some c5Resp.next_page_token) :=
  c6_theorem 0 tableExhaustedLast { executions := [execInfo0], next_page_token := [] }
    [exec0] wwExhaustedLast c5Resp { events := [histEvent1] } [eventW0]
    (by decide) (by decide) (by decide)

def histEventBad : HistoryEvent :=
  { event_id := 2, event_time := none, event_type := -1, attributes := none }

def c7Resp : GetWorkflowExecutionHistoryResponse :=
  { history := some { events := [histEvent1, histEventBad] }, next_page_token := [] }

/-- C7 counterexample: a history page whose second event fails conversion is
applied partially — the valid first event is appended, the malformed one is
silently dropped, and the loading state stays `Idle` (no `Error` recorded),
refuting both the claimed error report and the claimed unchanged collection. -/
theorem c7_counterexample :
    (WorkflowWidget.on_workflow_history_load (WorkflowWidget.new "wf-1" none) c7Resp
        false).workflow.history.events = [eventW0] ∧
    (WorkflowWidget.on_workflow_history_load (WorkflowWidget.new "wf-1" none) c7Resp
        false).loading_state = LoadingState.Idle := by
  exact ⟨by decide, by decide⟩

/-- C7 amended: a malformed workflow-table row makes the whole response be
rejected — `Error(message)` is recorded (before the task's panic) and the rows
and cursor are left unchanged; a malformed history event, however, is silently
skipped — the response's convertible events are appended and no error is
recorded (the loading state is untouched). -/
theorem c7_amended (now : Nat) (w : WorkflowTableWidget)
    (resp : ListWorkflowExecutionsResponse) (e : String) (clear : Bool)
    (v : WorkflowWidget) (hresp : GetWorkflowExecutionHistoryResponse)
    (hc : collectResults WorkflowExecution.tryFrom resp.executions = .error e) :
    (WorkflowTableWidget.on_load now w resp clear).isPanicked = true ∧
    (WorkflowTableWidget.on_load now w resp clear).get.state.loading_state =
      LoadingState.Error ("invalid workflow execution: " ++ e) ∧
    (WorkflowTableWidget.on_load now w resp clear).get.state.workflow_executions =
      w.state.workflow_executions ∧
    (WorkflowTableWidget.on_load now w resp clear).get.state.next_page_token =
      w.state.next_page_token ∧
    (WorkflowWidget.on_workflow_history_load v hresp false).loading_state =
      v.loading_state ∧
    (∀ h, hresp.history = some h →
      (WorkflowWidget.on_workflow_history_load v hresp false).workflow.history.events =
        v.workflow.history.events ++
          h.events.filterMap (fun ev => (EventWidget.tryFrom ev).toOption)) := by
  rw [on_load_err now w resp clear e hc]
  have hst := set_loading_state_table_fields now w
    (.Error ("invalid workflow execution: " ++ e))
  exact ⟨rfl, hst.1, hst.2.1, hst.2.2.1, (whl_false v hresp).1, (whl_false v hresp).2⟩

def execInfoBad : WorkflowExecutionInfo :=
  { execution := none
    type := none
    status := 0
    task_queue := ""
    start_time := none
    close_time := none
    execution_time := none
    execution_duration := none
    history_size_bytes := 0 }

/-- C7 witness: the amended statement at concrete inputs — a table response
whose only row is missing its execution identity, and the partially-valid
history page of the counterexample state. -/
theorem c7_witness :
    (WorkflowTableWidget.on_load 0 tableExhaustedLast
      { executions := [execInfoBad], next_page_token := [2] } true).isPanicked = true ∧
    (WorkflowTableWidget.on_load 0 tableExhaustedLast
      { executions := [execInfoBad], next_page_token := [2] } true).get.state.loading_state =
      LoadingState.Error "invalid workflow execution: workflow has no execution" ∧
    (WorkflowTableWidget.on_load 0 tableExhaustedLast
      { executions := [execInfoBad], next_page_token := [2] } true).get.state.workflow_executions =
      tableExhaustedLast.state.workflow_executions ∧
    (WorkflowTableWidget.on_load 0 tableExhaustedLast
      { executions := [execInfoBad], next_page_token := [2] } true).get.state.next_page_token =
      tableExhaustedLast.state.next_page_token ∧
    (WorkflowWidget.on_workflow_history_load wwExhaustedLast c7Resp false).loading_state =
      wwExhaustedLast.loading_state ∧
    (∀ h, c7Resp.history = some h →
      (WorkflowWidget.on_workflow_history_load wwExhaustedLast c7Resp
          false).workflow.history.events =
        wwExhaustedLast.workflow.history.events ++
          h.events.filterMap (fun ev => (EventWidget.tryFrom ev).toOption)) :=
  c7_amended 0 tableExhaustedLast { executions := [execInfoBad], next_page_token := [2] }
    "workflow has no execution" true wwExhaustedLast c7Resp (by decide)

theorem fetch_step_cases
    (client : Nat → List Nat → String → Except String ListWorkflowExecutionsResponse)
    (now : Nat) (w : WorkflowTableWidget) (msg : Message) :
    ((WorkflowTableWidget.fetch_workflows_step client now w msg).2 =
        [FetchEvent.rpcCall msg, FetchEvent.completed msg] ∧
      ((WorkflowTableWidget.fetch_workflows_step client now w msg).1).isOk = true) ∨
    ((WorkflowTableWidget.fetch_workflows_step client now w msg).2 =
        [FetchEvent.rpcCall msg] ∧
      ((WorkflowTableWidget.fetch_workflows_step client now w msg).1).isOk = false) := by
  unfold WorkflowTableWidget.fetch_workflows_step
  cases msg <;> dsimp only <;> split <;>
    (try split) <;>
    simp [WorkflowTableWidget.on_err, StepResult.isOk]

theorem fetch_step_trace_ok
    (client : Nat → List Nat → String → Except String ListWorkflowExecutionsResponse)
    (now : Nat) (w : WorkflowTableWidget) (msg : Message)
    (h : ((WorkflowTableWidget.fetch_workflows_step client now w msg).1).isOk = true) :
    (WorkflowTableWidget.fetch_workflows_step client now w msg).2 =
      [FetchEvent.rpcCall msg, FetchEvent.completed msg] := by
  rcases fetch_step_cases client now w msg with ⟨h1, _⟩ | ⟨h1, h2⟩
  · exact h1
  · rw [h] at h2
    cases h2

/-- C8: the fetch task drains its queue strictly in submission order and
completes each request (its RPC call and the following state update) before
dequeuing the next one: whenever a run of the loop over a queue of messages
finishes without panicking, its event trace is exactly the submission-ordered
concatenation of one `rpcCall`/`completed` pair per message — so at most one
fetch is ever in flight for the controller. -/
theorem c8_theorem
    (client : Nat → List Nat → String → Except String ListWorkflowExecutionsResponse)
    (now : Nat) (w : WorkflowTableWidget) (msgs : List Message)
    (h : ((WorkflowTableWidget.fetch_workflows client now w msgs).1).isOk = true) :
    (WorkflowTableWidget.fetch_workflows client now w msgs).2 =
      msgs.flatMap (fun m => [FetchEvent.rpcCall m, FetchEvent.completed m]) := by
  induction msgs generalizing w with
  | nil => simp [WorkflowTableWidget.fetch_workflows]
  | cons m ms ih =>
    unfold WorkflowTableWidget.fetch_workflows at h ⊢
    rcases hs : WorkflowTableWidget.fetch_workflows_step client now w m with ⟨r, tr⟩
    rw [hs] at h
    cases r with
    | panicked w1 =>
      have hfalse : ((StepResult.panicked w1 : StepResult WorkflowTableWidget), tr).1.isOk =
          true := h
      simp [StepResult.isOk] at hfalse
    | ok w1 =>
      have h1 : ((WorkflowTableWidget.fetch_workflows client now w1 ms).1).isOk = true := h
      have htr : tr = [FetchEvent.rpcCall m, FetchEvent.completed m] := by
        have hstep := fetch_step_trace_ok client now w m (by rw [hs]; rfl)
        rw [hs] at hstep
        exact hstep
      show tr ++ (WorkflowTableWidget.fetch_workflows client now w1 ms).2 = _
      rw [htr, ih w1 h1]
      rfl

def clientOk : Nat → List Nat → String → Except String ListWorkflowExecutionsResponse :=
  fun _ _ _ => .ok { executions := [], next_page_token := [] }

/-- C8 witness: a two-message queue (a reload followed by a page load) against
an always-succeeding client produces exactly the in-order trace. -/
theorem c8_witness :
    (WorkflowTableWidget.fetch_workflows clientOk 0 (WorkflowTableWidget.new 48)
        [Message.Reload, Message.LoadPage []]).2 =
      [FetchEvent.rpcCall Message.Reload, FetchEvent.completed Message.Reload,
        FetchEvent.rpcCall (Message.LoadPage []),
        FetchEvent.completed (Message.LoadPage [])] :=
  c8_theorem clientOk 0 (WorkflowTableWidget.new 48) [Message.Reload, Message.LoadPage []]
    (by decide)

/-- C9: in the detail view, Escape while a history event is expanded collapses
only that sub-item view — the resulting widget is the same widget with
`display_event` cleared (same controller, rows, cursor, selection and
identity); Escape while no sub-item is expanded hands back a brand-new
workflow-table view whose controller state is entirely fresh: no rows, no
cursor, `Idle` state, unset selection, empty filter text and no
last-reload timestamp — nothing of any previous list view is restored. -/
theorem c9_theorem (w : WorkflowWidget) :
    (w.workflow.history.display_event.isSome = true →
      WorkflowWidget.handle_esc w = EscOutcome.stay
        { w with workflow :=
            { w.workflow with history :=
                { w.workflow.history with display_event := none } } }) ∧
    (w.workflow.history.display_event = none →
      WorkflowWidget.handle_esc w = EscOutcome.toTable (WorkflowTableWidget.new 48) ∧
      (WorkflowTableWidget.new 48).state.workflow_executions = [] ∧
      (WorkflowTableWidget.new 48).state.next_page_token = none ∧
      (WorkflowTableWidget.new 48).state.loading_state = LoadingState.Idle ∧
      (WorkflowTableWidget.new 48).state.selected = none ∧
      (WorkflowTableWidget.new 48).query.queryString = "" ∧
      (WorkflowTableWidget.new 48).last_reload = none) := by
  constructor
  · intro hd
    unfold WorkflowWidget.handle_esc
    rw [if_pos]
    simp [HistoryWidget.is_displaying_event, hd]
  · intro hd
    refine ⟨?_, rfl, rfl, rfl, rfl, rfl, rfl⟩
    unfold WorkflowWidget.handle_esc
    rw [if_neg]
    simp [HistoryWidget.is_displaying_event, hd]

/-- A detail view currently displaying an expanded history event. -/
def wwDisplaying : WorkflowWidget :=
  { WorkflowWidget.new "wf-1" none with
    workflow :=
      { Workflow.default with
        history := { events := [eventW0], next_page_token := some [3], display_event := some 0 }
        history_selected := some 0 } }

/-- C9 witness: the statement at two concrete detail views — one with an
expanded history event, one without. -/
theorem c9_witness :
    WorkflowWidget.handle_esc wwDisplaying = EscOutcome.stay
      { wwDisplaying with workflow :=
          { wwDisplaying.workflow with history :=
              { wwDisplaying.workflow.history with display_event := none } } } ∧
    WorkflowWidget.handle_esc (WorkflowWidget.new "wf-1" none) =
      EscOutcome.toTable (WorkflowTableWidget.new 48) :=
  ⟨(c9_theorem wwDisplaying).1 (by decide),
    ((c9_theorem (WorkflowWidget.new "wf-1" none)).2 (by decide)).1⟩

end TemporalTui
